import Mathlib

/-!
Verification development for the adobo scRNA-seq toolkit
(`src/adobo/preproc.py`, `src/adobo/dr.py`).

Matrices are embedded as labelled row-major lists of rational rows
(`DataFrame`): `rowNames` are gene identifiers, `colNames` are cell
identifiers.  External numeric library routines (numpy's `log`, `std`
and `sqrt`, scipy's full SVD, sklearn's `MinCovDet`) are abstracted as
explicit oracle parameters; everything the repository itself computes
is embedded exactly over `ℚ`.
-/

namespace Adobo

/-- A pandas data frame: row labels, column labels and a row-major grid. -/
structure DataFrame where
  rowNames : List String
  colNames : List String
  data : List (List ℚ)
deriving DecidableEq

/-- Dot product of two lists, truncating to the shorter one (numpy dot on
matching shapes). -/
def dotQ (xs ys : List ℚ) : ℚ := (List.zipWith (· * ·) xs ys).sum

/-- Sum of column `j` of a grid (`DataFrame.sum(axis=0)` at position `j`). -/
def colSum (rows : List (List ℚ)) (j : Nat) : ℚ :=
  (rows.map (fun r => r.getD j 0)).sum

/-- Per-column sums, `exp_mat.sum(axis=0)` as a list over the column index. -/
def colSums (df : DataFrame) : List ℚ :=
  (List.range df.colNames.length).map (fun j => colSum df.data j)

/-- Number of strictly positive entries of a list (an expressed-count). -/
def countPos (r : List ℚ) : Nat := r.countP (fun x => decide (0 < x))

/-- Per-column count of strictly positive entries,
`np.sum(data > 0, axis=0)` at position `j`. -/
def colCountPos (rows : List (List ℚ)) (j : Nat) : Nat :=
  rows.countP (fun r => decide (0 < r.getD j 0))

/-- Keep the entries of `xs` whose position satisfies `mask`
(boolean positional indexing with an index-level predicate). -/
def selectIdx {α : Type} (mask : Nat → Bool) (xs : List α) : List α :=
  ((List.range xs.length).zip xs).filterMap
    (fun p => if mask p.1 then some p.2 else none)

/-- Keep the entries of `xs` at the positions where the aligned boolean
series `bs` is true (`xs[bs]` for a mask aligned with `xs`). -/
def maskSelect {α : Type} (bs : List Bool) (xs : List α) : List α :=
  (xs.zip bs).filterMap (fun p => if p.2 then some p.1 else none)

/-- Keep the columns of a data frame whose index satisfies `mask`:
both the column labels and every data row are filtered positionally. -/
def keepCols (mask : Nat → Bool) (df : DataFrame) : DataFrame :=
  { rowNames := df.rowNames
    colNames := selectIdx mask df.colNames
    data := df.data.map (fun r => selectIdx mask r) }

/-- Keep the rows of a data frame whose label (paired with its data row)
satisfies `p`; this is pandas label-mask row selection. -/
def filterRows (p : String → List ℚ → Bool) (df : DataFrame) : DataFrame :=
  let kept := (df.rowNames.zip df.data).filter (fun rp => p rp.1 rp.2)
  { rowNames := kept.map Prod.fst
    colNames := df.colNames
    data := kept.map Prod.snd }

/-- The threshold argument `minexpgenes` of `simple_filter`: the source
dispatches on whether it is a Python `int` or a fraction. -/
inductive MinExpGenes where
  | int (n : Int)
  | frac (q : ℚ)
deriving DecidableEq

/-- Numeric value of the threshold, used by the `minexpgenes > 0` guard. -/
def MinExpGenes.val : MinExpGenes → ℚ
  | .int n => (n : ℚ)
  | .frac q => q

/-- Embedding of `preproc.simple_filter`: drops cells whose read count is
not strictly above `minreads`; then, only when `minexpgenes > 0`, drops
genes by expressed-cell count (integer threshold: keep the rows whose
label is in the index of rows expressed in strictly more than `n` cells;
fractional threshold: positional mask on the expressed fraction). -/
def simple_filter (df : DataFrame) (minreads : ℚ) (minexpgenes : MinExpGenes) :
    DataFrame :=
  let cellCounts := colSums df
  let expMat := keepCols (fun j => decide (minreads < cellCounts.getD j 0)) df
  if 0 < minexpgenes.val then
    match minexpgenes with
    | .int n =>
      let genesExpressed := expMat.data.map (fun r => (countPos r : Int))
      let targetGenes := maskSelect (genesExpressed.map (fun c => decide (n < c)))
        expMat.rowNames
      filterRows (fun nm _ => targetGenes.contains nm) expMat
    | .frac q =>
      let genesExpressed := expMat.data.map
        (fun r => ((countPos r : ℚ) / (r.length : ℚ)))
      { rowNames := maskSelect (genesExpressed.map (fun c => decide (q < c)))
          expMat.rowNames
        colNames := expMat.colNames
        data := maskSelect (genesExpressed.map (fun c => decide (q < c)))
          expMat.data }
  else expMat

/-- Embedding of `preproc.remove_empty`.  Faithful to the source: the
per-column zero count (over `total_genes` entries) is compared against
`total_cells`, and the per-row zero count (over `total_cells` entries)
is compared against `total_genes`; both masks are computed on the input
frame, the column mask is applied first and the row mask (aligned by row
position, which column removal preserves) second, each behind a guard
that skips the step when no index qualifies. -/
def remove_empty (df : DataFrame) : DataFrame :=
  let totalGenes := df.data.length
  let totalCells := df.colNames.length
  let zerosPerCol : List Nat := (List.range df.colNames.length).map
    (fun j => df.data.countP (fun r => decide (r.getD j 0 = 0)))
  let zerosPerRow : List Nat := df.data.map (fun r => r.countP (fun x => decide (x = 0)))
  let step1 :=
    if (zerosPerCol.countP (fun c => decide (c = totalCells))) > 0 then
      keepCols (fun j => decide (¬ zerosPerCol.getD j 0 = totalCells)) df
    else df
  if (zerosPerRow.countP (fun c => decide (c = totalGenes))) > 0 then
    let rowMask := zerosPerRow.map (fun c => decide (¬ c = totalGenes))
    { rowNames := maskSelect rowMask step1.rowNames
      colNames := step1.colNames
      data := maskSelect rowMask step1.data }
  else step1

/-- Row split shared by `detect_mito` and `detect_ERCC_spikes`: the rows
whose label fails the pattern predicate (the remainder kept in
`exp_mat`) and the rows whose label matches (the extracted subset). -/
def splitByPattern (p : String → Bool) (df : DataFrame) :
    DataFrame × DataFrame :=
  (filterRows (fun nm _ => !(p nm)) df, filterRows (fun nm _ => p nm) df)

/-- One result stored in a normalization record under `dr.pca`. -/
structure PcaSlot where
  comp : DataFrame
  contr : DataFrame
  method : String
deriving DecidableEq

/-- One named normalization record: the normalized matrix, its
highly-variable-gene list and the nested `dr` result slot. -/
structure NormEntry where
  data : DataFrame
  hvgGenes : List String
  drPca : Option PcaSlot
deriving DecidableEq

/-- The dataset collaborator, restricted to the fields this core touches. -/
structure Dataset where
  exp_mat : DataFrame
  exp_mito : Option DataFrame
  exp_ERCC : Option DataFrame
  low_quality_cells : List String
  norm_data : List (String × NormEntry)
  assays : List (String × String)
deriving DecidableEq

/-- Embedding of `preproc.detect_mito`: when at least one row label
matches the pattern, the matching rows move to `exp_mito` and the
remainder stays in `exp_mat`; otherwise the dataset is left unchanged. -/
def detect_mito (p : String → Bool) (obj : Dataset) : Dataset :=
  let split := splitByPattern p obj.exp_mat
  if 0 < (obj.exp_mat.rowNames.countP p) then
    { obj with exp_mat := split.1, exp_mito := some split.2 }
  else obj

/-- Embedding of `preproc.detect_ERCC_spikes`.  Faithful to the source:
`exp_ERCC = exp_mat[s]` is computed as a local variable but never
assigned to the dataset; only `obj.exp_mat` receives the remainder. -/
def detect_ERCC_spikes (p : String → Bool) (obj : Dataset) : Dataset :=
  let split := splitByPattern p obj.exp_mat
  { obj with exp_mat := split.1 }

/-- Python's test `type(x) == None`: `type(x)` is a class object and a
class never equals `None`, so the comparison is false for every value,
including `x = None` itself. -/
def pyTypeEqNone {α : Type} (_x : Option α) : Bool := false

/-- Embedding of `preproc.auto_clean`.  The `type(...) == None` guards
are kept (they never fire); a missing sub-matrix then surfaces as the
attribute error numpy raises on `None` while the percentage series are
built.  When both sub-matrices are present, the per-cell reads,
detected-gene counts and the three percentage series are computed, but
the quality-matrix assembly that follows looks up the name `pd` —
`preproc.py` imports only numpy — so every such call fails with a name
error: the covariance fit, the thresholds and the flag assignment are
unreachable, and `low_quality_cells` is never written.  The oracle
parameters `mcd`, `npStd` and `npLog` stand for the library routines
(`MinCovDet(random_state=seed).mahalanobis`, `np.std`, `np.log`) that
the unreachable remainder of the source would call. -/
def auto_clean (mcd : Nat → List (List ℚ) → List ℚ) (npStd : List ℚ → ℚ)
    (npLog : ℚ → ℚ) (rRNAgenes : List String) (sdThres : ℚ) (seed : Nat)
    (obj : Dataset) : Except String Dataset :=
  let data := obj.exp_mat
  if pyTypeEqNone obj.exp_ERCC then
    .error "auto_clean() needs ERCC spikes"
  else if pyTypeEqNone obj.exp_mito then
    .error "No mitochondrial genes found. Run detect_mito() first."
  else
    match obj.exp_mito, obj.exp_ERCC with
    | some dataMt, some dataERCC =>
      let readsPerCell := fun j => colSum data.data j
      let noGenesDet := fun j => colCountPos data.data j
      let dataRRNA := filterRows (fun nm _ => rRNAgenes.contains nm) data
      let percRRNA := fun j => colSum dataRRNA.data j / readsPerCell j * 100
      let percMt := fun j => colSum dataMt.data j / readsPerCell j * 100
      let percERCC := fun j => colSum dataERCC.data j / readsPerCell j * 100
      let _qcColumnsNeverConsumed := (noGenesDet, percRRNA, percMt, percERCC)
      .error "NameError: name pd is not defined"
    | _, _ =>
      .error "AttributeError: NoneType object has no attribute sum"

/-- The default pandas `RangeIndex` rendered as labels. -/
def defaultIdx (n : Nat) : List String := (List.range n).map (fun j => toString j)

/-- Transpose of a data frame (`data_norm.transpose()`): labels swap and
row `j` of the result is column `j` of the input grid. -/
def dfTranspose (df : DataFrame) : DataFrame :=
  { rowNames := df.colNames
    colNames := df.rowNames
    data := (List.range df.colNames.length).map
      (fun j => df.data.map (fun r => r.getD j 0)) }

/-- Result of the truncated Lanczos SVD routine: left singular vectors
`U` (genes by k), singular values `s`, right singular vectors `V`
(cells by k). -/
structure LanczosResult where
  U : List (List ℚ)
  s : List ℚ
  V : List (List ℚ)

/-- Modelled from the spec: `irlbpy.lanczos` is imported from a module
that is not under `src/`.  Per the spec the routine computes the top
`nval` singular triplets of the gene-by-cell matrix (iteration cap
`maxit`, seed-controlled) and signals an error when `nval` exceeds
`min(n_genes, n_cells)`; the triplets themselves are abstracted by the
`oracle` parameter. -/
def lanczos (oracle : DataFrame → Nat → Nat → Option Nat → LanczosResult)
    (df : DataFrame) (nval maxit : Nat) (seed : Option Nat) :
    Except String LanczosResult :=
  if min df.data.length df.colNames.length < nval then
    .error "lanczos: requested dimension exceeds matrix dimensions"
  else
    .ok (oracle df nval maxit seed)

/-- Embedding of `dr.irlb`: runs the Lanczos routine with `maxit=1000`,
returns components `V · diag(s)` with a default index and contributions
`|U|` indexed by the gene identifiers. -/
def irlb (oracle : DataFrame → Nat → Nat → Option Nat → LanczosResult)
    (dataNorm : DataFrame) (ncomp : Nat) (seed : Option Nat) :
    Except String (DataFrame × DataFrame) :=
  let inp := dataNorm
  match lanczos oracle inp ncomp 1000 seed with
  | .error e => .error e
  | .ok lanc =>
    let compData := lanc.V.map (fun r => List.zipWith (· * ·) r lanc.s)
    let comp : DataFrame :=
      { rowNames := defaultIdx compData.length
        colNames := defaultIdx ((compData.headD []).length)
        data := compData }
    let contrData := lanc.U.map (fun r => r.map (fun x => |x|))
    let contr : DataFrame :=
      { rowNames := inp.rowNames
        colNames := defaultIdx ((contrData.headD []).length)
        data := contrData }
    .ok (comp, contr)

/-- Embedding of `dr.svd`.  `scipySvd` abstracts `scipy.linalg.svd`
applied to the transposed (cell-by-gene) grid, returning `(U, d, Vt)`;
for the rectangular `Vt` scipy returns, `v = Vt.T` has as columns the
rows of `Vt`, so `inp.dot(v)` pairs each cell row with each row of `Vt`
and `v` itself is materialized by indexing.  The scaled singular values
`s_d = d / sqrt(n_cells - 1)` are computed (via the `npSqrt` oracle)
and, as in the source, never used. -/
def svd_strategy
    (scipySvd : List (List ℚ) → List (List ℚ) × List ℚ × List (List ℚ))
    (npSqrt : ℚ → ℚ) (dataNorm : DataFrame) (ncomp : Nat) :
    DataFrame × DataFrame :=
  let inp := dfTranspose dataNorm
  let s := scipySvd inp.data
  let vt := s.2.2
  let d := s.2.1
  let sd := d.map (fun x => x / npSqrt ((inp.data.length : ℚ) - 1))
  let retx := inp.data.map (fun r => vt.map (fun w => dotQ r w))
  let compData := retx.map (List.take ncomp)
  let comp : DataFrame :=
    { rowNames := inp.rowNames
      colNames := (defaultIdx vt.length).take ncomp
      data := compData }
  let v := (List.range ((vt.headD []).length)).map
    (fun g => vt.map (fun w => w.getD g 0))
  let contrData := v.map (fun r => (r.take ncomp).map (fun x => |x|))
  let contr : DataFrame :=
    { rowNames := inp.colNames
      colNames := defaultIdx (min ncomp vt.length)
      data := contrData }
  let _unusedScaledSingularValues := sd
  (comp, contr)

/-- Mean of a list of rationals. -/
def listMean (r : List ℚ) : ℚ := r.sum / (r.length : ℚ)

/-- The column standardization `pca` performs when `scale=True`:
`sklearn_scale` on the transposed matrix over `axis=0` centers and
scales each gene, and the result is transposed back onto the gene
index, so each gene row is centered and divided by its standard
deviation (`stdFn` abstracts the per-feature `np.std`). -/
def scaleRowsDF (stdFn : List ℚ → ℚ) (df : DataFrame) : DataFrame :=
  { rowNames := df.rowNames
    colNames := df.colNames
    data := df.data.map (fun r =>
      let mu := listMean r
      let sd := stdFn r
      r.map (fun x => (x - mu) / sd)) }

/-- The per-normalization body of `dr.pca`: restrict to the HVG subset
unless `allgenes`, compute `d_scaled` when `scaleFlag` (the source never
passes it on), dispatch on the method name with the unscaled `data`,
and store the result in the `dr.pca` slot. -/
def pcaOne (lOracle : DataFrame → Nat → Nat → Option Nat → LanczosResult)
    (scipySvd : List (List ℚ) → List (List ℚ) × List ℚ × List (List ℚ))
    (npSqrt : ℚ → ℚ) (stdFn : List ℚ → ℚ) (method : String) (ncomp : Nat)
    (allgenes scaleFlag : Bool) (seed : Option Nat) (entry : NormEntry) :
    Except String NormEntry :=
  let data :=
    if ¬ allgenes then
      filterRows (fun nm _ => entry.hvgGenes.contains nm) entry.data
    else entry.data
  let dScaled := if scaleFlag then some (scaleRowsDF stdFn data) else none
  let _unusedScaledMatrix := dScaled
  if method = "irlb" then
    match irlb lOracle data ncomp seed with
    | .error e => .error e
    | .ok ct => .ok { entry with drPca := some ⟨ct.1, ct.2, method⟩ }
  else if method = "svd" then
    let ct := svd_strategy scipySvd npSqrt data ncomp
    .ok { entry with drPca := some ⟨ct.1, ct.2, method⟩ }
  else
    .error "Unkown PCA method spefified. Valid choices are: irlb and svd"

/-- Replace the entry named `k` in a normalization store. -/
def updateNorm (k : String) (e : NormEntry) (nd : List (String × NormEntry)) :
    List (String × NormEntry) :=
  nd.map (fun p => if p.1 = k then (p.1, e) else p)

/-- Embedding of `dr.pca`: requires at least one normalization, selects
all records when `name` is `None` or empty and the named record (a
`KeyError` when absent) otherwise, then runs `pcaOne` on each target,
storing the result and appending a `("pca", method)` assay record. -/
def pca (lOracle : DataFrame → Nat → Nat → Option Nat → LanczosResult)
    (scipySvd : List (List ℚ) → List (List ℚ) × List ℚ × List (List ℚ))
    (npSqrt : ℚ → ℚ) (stdFn : List ℚ → ℚ) (method : String)
    (name : Option String) (ncomp : Nat) (allgenes scaleFlag : Bool)
    (seed : Option Nat) (obj : Dataset) : Except String Dataset :=
  if obj.norm_data.isEmpty then
    .error "Run normalization first before running pca."
  else
    match
      (match name with
       | none => Except.ok obj.norm_data
       | some n =>
         if n = "" then Except.ok obj.norm_data
         else
           match obj.norm_data.lookup n with
           | some e => Except.ok [(n, e)]
           | none => Except.error "KeyError") with
    | .error e => .error e
    | .ok targets =>
      targets.foldlM (fun (o : Dataset) kv =>
        match pcaOne lOracle scipySvd npSqrt stdFn method ncomp allgenes
            scaleFlag seed kv.2 with
        | .error e => Except.error e
        | .ok e2 => Except.ok { o with
            norm_data := updateNorm kv.1 e2 o.norm_data
            assays := o.assays ++ [("pca", method)] }) obj

/-! Concrete instances used by the counterexamples and witnesses. -/

/-- The 4-gene by 5-cell count matrix of the spec scenario: one
all-zero cell (the fifth column), every gene expressed elsewhere. -/
def mFourByFive : DataFrame :=
  { rowNames := ["g1", "g2", "g3", "g4"]
    colNames := ["c1", "c2", "c3", "c4", "c5"]
    data := [[1, 1, 1, 1, 0], [1, 1, 1, 1, 0],
             [1, 1, 1, 1, 0], [1, 1, 1, 1, 0]] }

/-- A matrix whose second cell has a zero read count. -/
def mZeroCol : DataFrame :=
  { rowNames := ["g1", "g2"], colNames := ["c1", "c2"],
    data := [[1, 0], [2, 0]] }

/-- A matrix whose first gene is expressed in zero cells. -/
def mZeroRow : DataFrame :=
  { rowNames := ["g1", "g2"], colNames := ["c1", "c2"],
    data := [[0, 0], [2, 1]] }

/-- Pattern predicate picking out the spike-in row label. -/
def pIsERCC (nm : String) : Bool := nm = "ERCC_1"

/-- A dataset whose expression matrix still holds one ERCC spike row;
no ERCC sub-matrix has been separated yet. -/
def dsWithSpikeRow : Dataset :=
  { exp_mat := { rowNames := ["ERCC_1", "Actb"], colNames := ["c1"],
                 data := [[3], [5]] }
    exp_mito := none, exp_ERCC := none, low_quality_cells := []
    norm_data := [], assays := [] }

/-- A dataset with mitochondrial genes separated but no ERCC sub-matrix. -/
def dsNoERCC : Dataset :=
  { exp_mat := { rowNames := ["g1"], colNames := ["c1", "c2"],
                 data := [[1, 2]] }
    exp_mito := some { rowNames := ["mt-1"], colNames := ["c1", "c2"],
                       data := [[1, 1]] }
    exp_ERCC := none, low_quality_cells := [], norm_data := [], assays := [] }

/-- A nuclear expression matrix with one gene and two cells. -/
def dfExprFull : DataFrame :=
  { rowNames := ["g1"], colNames := ["c1", "c2"], data := [[1, 2]] }

/-- A separated mitochondrial sub-matrix. -/
def dfMito : DataFrame :=
  { rowNames := ["mt-1"], colNames := ["c1", "c2"], data := [[1, 1]] }

/-- A separated ERCC spike-in sub-matrix. -/
def dfSpike : DataFrame :=
  { rowNames := ["ERCC_1"], colNames := ["c1", "c2"], data := [[1, 1]] }

/-- A fully prepared dataset: expression, mitochondrial and ERCC parts. -/
def dsFull : Dataset :=
  { exp_mat := dfExprFull
    exp_mito := some dfMito
    exp_ERCC := some dfSpike
    low_quality_cells := [], norm_data := [], assays := [] }

/-- A covariance oracle assigning distance zero to every cell. -/
def mcdZero : Nat → List (List ℚ) → List ℚ := fun _ rows => rows.map (fun _ => 0)

/-- A standard-deviation oracle returning one. -/
def stdOne : List ℚ → ℚ := fun _ => 1

/-- A logarithm oracle (identity, adequate for shape-level witnesses). -/
def logId : ℚ → ℚ := fun x => x

/-- A Lanczos oracle returning empty triplets. -/
def lancEmpty : DataFrame → Nat → Nat → Option Nat → LanczosResult :=
  fun _ _ _ _ => ⟨[], [], []⟩

/-- A scipy oracle whose right singular matrix is the 1-by-1 identity. -/
def svdOracleOne : List (List ℚ) → List (List ℚ) × List ℚ × List (List ℚ) :=
  fun _ => ([], [], [[1]])

/-- A scipy oracle whose right singular matrix is the 2-by-2 identity. -/
def svdOracleId2 : List (List ℚ) → List (List ℚ) × List ℚ × List (List ℚ) :=
  fun _ => ([], [1, 1], [[1, 0], [0, 1]])

/-- The one-gene, two-cell normalized matrix used for the pca scenario. -/
def dfOneGene : DataFrame :=
  { rowNames := ["g"], colNames := ["c1", "c2"], data := [[0, 2]] }

/-- A normalization record for `dfOneGene` whose HVG list covers it. -/
def entryOneGene : NormEntry :=
  { data := dfOneGene, hvgGenes := ["g"], drPca := none }

/-- A dataset carrying the single normalization `"n"`. -/
def dsOneNorm : Dataset :=
  { exp_mat := dfOneGene, exp_mito := none, exp_ERCC := none
    low_quality_cells := [], norm_data := [("n", entryOneGene)], assays := [] }

/-- A square two-gene, two-cell matrix for the over-rank scenario. -/
def dfTwoByTwo : DataFrame :=
  { rowNames := ["g1", "g2"], colNames := ["c1", "c2"],
    data := [[1, 0], [0, 1]] }

/-! Helper lemmas. -/

theorem zip_filter_fst (q : String → Bool) :
    ∀ (names : List String) (rows : List (List ℚ)),
      rows.length = names.length →
      ((names.zip rows).filter (fun rp => q rp.1)).map Prod.fst = names.filter q
  | [], [], _ => by simp
  | [], _ :: _, h => by simp at h
  | _ :: _, [], h => by simp at h
  | n :: names, r :: rows, h => by
    have hlen : rows.length = names.length := by
      simpa using h
    have := zip_filter_fst q names rows hlen
    by_cases hq : q n = true
    · simp [List.filter_cons, hq, this]
    · simp only [Bool.not_eq_true] at hq
      simp [List.filter_cons, hq, this]

theorem filterRows_rowNames (q : String → Bool) (df : DataFrame)
    (hlen : df.data.length = df.rowNames.length) :
    (filterRows (fun nm _ => q nm) df).rowNames = df.rowNames.filter q := by
  simpa [filterRows] using zip_filter_fst q df.rowNames df.data hlen

theorem selectIdx_congr {α : Type} (m₁ m₂ : Nat → Bool) (xs : List α)
    (h : ∀ j < xs.length, m₁ j = m₂ j) :
    selectIdx m₁ xs = selectIdx m₂ xs := by
  unfold selectIdx
  refine List.filterMap_congr (fun p hp => ?_)
  have hj : p.1 ∈ List.range xs.length := (List.of_mem_zip hp).1
  rw [h p.1 (List.mem_range.mp hj)]

theorem getD_map_range {α : Type} (f : Nat → α) {j n : Nat} (h : j < n) (d : α) :
    ((List.range n).map f).getD j d = f j := by
  simp [List.getD_eq_getElem?_getD, List.getElem?_map, List.getElem?_range h]

theorem getD_nonneg {r : List ℚ} (h : ∀ x ∈ r, 0 ≤ x) (j : Nat) :
    0 ≤ r.getD j 0 := by
  rw [List.getD_eq_getElem?_getD]
  cases hx : r[j]? with
  | none => simp
  | some x =>
    have : x ∈ r := List.getElem?_mem hx
    simpa using h x this

theorem colSum_nonneg {rows : List (List ℚ)}
    (h : ∀ r ∈ rows, ∀ x ∈ r, 0 ≤ x) (j : Nat) : 0 ≤ colSum rows j := by
  refine List.sum_nonneg (fun x hx => ?_)
  obtain ⟨r, hr, rfl⟩ := List.mem_map.mp hx
  exact getD_nonneg (h r hr) j

/-! Claim theorems. -/

/-- C4: on the spec scenario — a 4-gene by 5-cell count matrix with one
all-zero cell — `remove_empty` returns the matrix unchanged: all 5 cells
survive and the fifth column still sums to zero, because the source
compares per-column zero counts against the number of columns and
per-row zero counts against the number of rows (the axes are swapped),
so neither guard ever fires on a non-square matrix of this shape. -/
theorem remove_empty_misses_zero_column :
    remove_empty mFourByFive = mFourByFive ∧
    (remove_empty mFourByFive).colNames.length = 5 ∧
    colSum (remove_empty mFourByFive).data 4 = 0 := by
  have h : remove_empty mFourByFive = mFourByFive := by
    norm_num [remove_empty, mFourByFive, keepCols, selectIdx, maskSelect,
      List.range_succ, List.filterMap_cons, List.countP_cons, List.countP_nil]
  refine ⟨h, by rw [h]; rfl, by rw [h]; norm_num [mFourByFive, colSum]⟩

/-- C10: after `detect_ERCC_spikes` on a dataset whose matrix holds a
row matching the ERCC pattern, `exp_mat` does hold the remainder, yet
`exp_ERCC` is left exactly as it was (here: absent) even though the
extracted subset is non-empty — the source computes the spike sub-matrix
but never assigns it to the dataset. -/
theorem detect_ERCC_leaves_ercc_field_unset :
    (detect_ERCC_spikes pIsERCC dsWithSpikeRow).exp_mat.rowNames = ["Actb"] ∧
    (splitByPattern pIsERCC dsWithSpikeRow.exp_mat).2.rowNames = ["ERCC_1"] ∧
    (detect_ERCC_spikes pIsERCC dsWithSpikeRow).exp_ERCC =
      dsWithSpikeRow.exp_ERCC ∧
    dsWithSpikeRow.exp_ERCC = none := by
  refine ⟨?_, ?_, rfl, rfl⟩ <;>
    norm_num [detect_ERCC_spikes, splitByPattern, filterRows, dsWithSpikeRow,
      pIsERCC, List.filter_cons] <;> decide

/-- C6: invoking `auto_clean` on a dataset with no separated ERCC
sub-matrix does not raise the configuration error — the guard
`type(data_ERCC) == None` is false for every value, so execution reaches
the quality-metric stage and fails there with an attribute error
instead. -/
theorem auto_clean_guard_never_raises_config_error :
    auto_clean mcdZero stdOne logId [] 3 42 dsNoERCC =
      .error "AttributeError: NoneType object has no attribute sum" ∧
    (∀ (x : Option DataFrame), pyTypeEqNone x = false) ∧
    "AttributeError: NoneType object has no attribute sum" ≠
      "auto_clean() needs ERCC spikes" := by
  refine ⟨rfl, fun _ => rfl, by decide⟩

/-- C8 counterexample: `simple_filter` with `minreads = 0` is not a
no-op on columns — on a matrix with a zero-count cell the strict
comparison `cell_counts > 0` drops that cell. -/
theorem simple_filter_minreads_zero_drops_column :
    (simple_filter mZeroCol 0 (.int 0)).colNames = ["c1"] ∧
    (simple_filter mZeroCol 0 (.int 0)).colNames ≠ mZeroCol.colNames := by
  have h : (simple_filter mZeroCol 0 (.int 0)).colNames = ["c1"] := by
    norm_num [simple_filter, MinExpGenes.val, mZeroCol, colSums, colSum,
      keepCols, selectIdx, List.range_succ, List.filterMap_cons]
  exact ⟨h, by rw [h]; exact by decide⟩

/-- C9 counterexample: on a matrix whose first gene is expressed in zero
cells, `simple_filter` with the integer threshold 0 does not remove that
gene — the guard `minexpgenes > 0` skips the row filter entirely. -/
theorem simple_filter_int_zero_keeps_unexpressed_gene :
    countPos (mZeroRow.data.getD 0 []) = 0 ∧
    (simple_filter mZeroRow 0 (.int 0)).rowNames = ["g1", "g2"] ∧
    "g1" ∈ (simple_filter mZeroRow 0 (.int 0)).rowNames := by
  have h0 : countPos (mZeroRow.data.getD 0 []) = 0 := by
    norm_num [countPos, mZeroRow, List.countP_cons, List.countP_nil]
  have h : (simple_filter mZeroRow 0 (.int 0)).rowNames = ["g1", "g2"] := by
    norm_num [simple_filter, MinExpGenes.val, mZeroRow, colSums, colSum,
      keepCols, selectIdx, List.range_succ, List.filterMap_cons]
  exact ⟨h0, h, by rw [h]; exact by decide⟩

/-- C5 counterexample: the exact strategy does not fail when more
components are requested than `min(n_genes, n_cells)` — with a 2-by-2
matrix and `ncomp = 3` it returns normally, silently producing only two
component columns. -/
theorem svd_excess_ncomp_silently_truncates :
    (svd_strategy svdOracleId2 logId dfTwoByTwo 3).1.data = [[1, 0], [0, 1]] ∧
    ((svd_strategy svdOracleId2 logId dfTwoByTwo 3).1.data.map
      List.length) = [2, 2] := by
  have h : (svd_strategy svdOracleId2 logId dfTwoByTwo 3).1.data =
      [[1, 0], [0, 1]] := by
    norm_num [svd_strategy, svdOracleId2, dfTwoByTwo, dfTranspose, dotQ,
      List.range_succ]
  exact ⟨h, by rw [h]; rfl⟩

/-- C7: for every pattern predicate and every well-formed matrix (one
data row per row label), the remainder and the extracted subset of the
pattern-based row split have disjoint row-identifier sets, and the
union of their row-identifier sets is the input's row-identifier set. -/
theorem splitByPattern_partition (p : String → Bool) (df : DataFrame)
    (hlen : df.data.length = df.rowNames.length) :
    ((splitByPattern p df).1.rowNames.toFinset ∩
      (splitByPattern p df).2.rowNames.toFinset = ∅) ∧
    ((splitByPattern p df).1.rowNames.toFinset ∪
      (splitByPattern p df).2.rowNames.toFinset = df.rowNames.toFinset) := by
  have h1 : (splitByPattern p df).1.rowNames =
      df.rowNames.filter (fun nm => !(p nm)) :=
    filterRows_rowNames (fun nm => !(p nm)) df hlen
  have h2 : (splitByPattern p df).2.rowNames = df.rowNames.filter p :=
    filterRows_rowNames p df hlen
  rw [h1, h2, List.toFinset_filter, List.toFinset_filter]
  constructor
  · ext a
    simp only [Finset.mem_inter, Finset.mem_filter, Finset.not_mem_empty,
      iff_false]
    rintro ⟨⟨-, h1⟩, ⟨-, h2⟩⟩
    simp [h2] at h1
  · ext a
    simp only [Finset.mem_union, Finset.mem_filter, Bool.not_eq_true']
    cases hpa : p a <;> simp [hpa]

/-- C7 witness: the partition property holds at a concrete two-gene
matrix split on the predicate matching its first gene. -/
theorem splitByPattern_partition_witness :
    mZeroCol.data.length = mZeroCol.rowNames.length ∧
    (((splitByPattern (fun nm => nm = "g1") mZeroCol).1.rowNames.toFinset ∩
       (splitByPattern (fun nm => nm = "g1") mZeroCol).2.rowNames.toFinset = ∅) ∧
     ((splitByPattern (fun nm => nm = "g1") mZeroCol).1.rowNames.toFinset ∪
       (splitByPattern (fun nm => nm = "g1") mZeroCol).2.rowNames.toFinset =
       mZeroCol.rowNames.toFinset)) :=
  ⟨rfl, splitByPattern_partition (fun nm => nm = "g1") mZeroCol rfl⟩

/-- C8: corrected form.  On a matrix with non-negative entries,
`simple_filter` with `minReads = 0` keeps exactly the columns whose read
count is non-zero (so it is a no-op on columns only when every cell has
at least one read), and with the integer threshold 0 it is a no-op on
rows because the row-filtering step is skipped. -/
theorem simple_filter_zero_thresholds (df : DataFrame)
    (hnn : ∀ r ∈ df.data, ∀ x ∈ r, 0 ≤ x) :
    (simple_filter df 0 (.int 0)).rowNames = df.rowNames ∧
    (simple_filter df 0 (.int 0)).colNames =
      selectIdx (fun j => decide (colSum df.data j ≠ 0)) df.colNames := by
  have hguard : simple_filter df 0 (.int 0) =
      keepCols (fun j => decide ((0 : ℚ) < (colSums df).getD j 0)) df := by
    simp [simple_filter, MinExpGenes.val]
  constructor
  · rw [hguard]; rfl
  · rw [hguard]
    show selectIdx (fun j => decide ((0 : ℚ) < (colSums df).getD j 0))
        df.colNames =
      selectIdx (fun j => decide (colSum df.data j ≠ 0)) df.colNames
    refine selectIdx_congr _ _ df.colNames (fun j hj => ?_)
    have hget : (colSums df).getD j 0 = colSum df.data j :=
      getD_map_range (fun j => colSum df.data j) hj 0
    rw [hget]
    refine decide_eq_decide.mpr ?_
    have h0 : 0 ≤ colSum df.data j := colSum_nonneg hnn j
    constructor
    · exact fun h => ne_of_gt h
    · exact fun h => lt_of_le_of_ne h0 (Ne.symm h)

/-- C8 witness: the corrected statement evaluated on `mZeroCol`, whose
second column has a zero read count and is therefore dropped. -/
theorem simple_filter_zero_thresholds_witness :
    (∀ r ∈ mZeroCol.data, ∀ x ∈ r, 0 ≤ x) ∧
    ((simple_filter mZeroCol 0 (.int 0)).rowNames = mZeroCol.rowNames ∧
     (simple_filter mZeroCol 0 (.int 0)).colNames =
       selectIdx (fun j => decide (colSum mZeroCol.data j ≠ 0))
         mZeroCol.colNames) := by
  have hnn : ∀ r ∈ mZeroCol.data, ∀ x ∈ r, 0 ≤ x := by
    norm_num [mZeroCol]
  exact ⟨hnn, simple_filter_zero_thresholds mZeroCol hnn⟩

/-- C9: corrected form.  A gene expressed in zero cells is NOT removed
by `simple_filter` when `minExpressedGenesThreshold` is the integer 0:
the guard `minexpgenes > 0` skips the row filter, so the gene's
identifier is still present afterwards. -/
theorem simple_filter_int_zero_retains_gene (df : DataFrame) (minreads : ℚ)
    (g : String) (r : List ℚ) (hmem : (g, r) ∈ df.rowNames.zip df.data)
    (hzero : countPos r = 0) :
    g ∈ (simple_filter df minreads (.int 0)).rowNames := by
  have h : (simple_filter df minreads (.int 0)).rowNames = df.rowNames := by
    simp [simple_filter, MinExpGenes.val, keepCols]
  rw [h]
  exact (List.of_mem_zip hmem).1

/-- C9 witness: applied to `mZeroRow`, whose gene `g1` is expressed in
zero cells. -/
theorem simple_filter_int_zero_retains_gene_witness :
    ("g1", ([0, 0] : List ℚ)) ∈ mZeroRow.rowNames.zip mZeroRow.data ∧
    countPos ([0, 0] : List ℚ) = 0 ∧
    "g1" ∈ (simple_filter mZeroRow 0 (.int 0)).rowNames := by
  have hmem : ("g1", ([0, 0] : List ℚ)) ∈ mZeroRow.rowNames.zip mZeroRow.data := by
    norm_num [mZeroRow]
  have hzero : countPos ([0, 0] : List ℚ) = 0 := by
    norm_num [countPos, List.countP_cons, List.countP_nil]
  exact ⟨hmem, hzero,
    simple_filter_int_zero_retains_gene mZeroRow 0 "g1" [0, 0] hmem hzero⟩

/-- C3: `preproc.py` imports only numpy, so the name `pd` in the
quality-matrix assembly is unbound: on every dataset whose
mitochondrial and ERCC sub-matrices are present, `auto_clean` computes
the per-cell metric series and then fails with the name error — no
covariance fit, no thresholds, no flagging — and can never return a
dataset, so `low_quality_cells` is never stored. -/
theorem auto_clean_never_flags
    (mcd : Nat → List (List ℚ) → List ℚ) (npStd : List ℚ → ℚ)
    (npLog : ℚ → ℚ) (rRNAgenes : List String) (t : ℚ) (seed : Nat)
    (obj : Dataset) (dmt de : DataFrame)
    (hmt : obj.exp_mito = some dmt) (he : obj.exp_ERCC = some de) :
    auto_clean mcd npStd npLog rRNAgenes t seed obj =
      .error "NameError: name pd is not defined" ∧
    ∀ obj2 : Dataset,
      auto_clean mcd npStd npLog rRNAgenes t seed obj ≠ .ok obj2 := by
  have h : auto_clean mcd npStd npLog rRNAgenes t seed obj =
      .error "NameError: name pd is not defined" := by
    unfold auto_clean
    rw [hmt, he]
    simp [pyTypeEqNone]
  refine ⟨h, fun obj2 hok => ?_⟩
  rw [h] at hok
  cases hok

/-- C3 witness: `auto_clean` on a concrete fully prepared dataset
raises the name error and yields no dataset. -/
theorem auto_clean_never_flags_witness :
    dsFull.exp_mito = some dfMito ∧ dsFull.exp_ERCC = some dfSpike ∧
    (auto_clean mcdZero stdOne logId [] 3 42 dsFull =
      .error "NameError: name pd is not defined" ∧
    ∀ obj2 : Dataset,
      auto_clean mcdZero stdOne logId [] 3 42 dsFull ≠ .ok obj2) :=
  ⟨rfl, rfl,
    auto_clean_never_flags mcdZero stdOne logId [] 3 42 dsFull dfMito
      dfSpike rfl rfl⟩

/-- C2: in the exact strategy, the returned components are the
transposed (cell-by-gene) matrix multiplied by the first `k` right
singular vectors (the first `k` rows of scipy's `Vt`), indexed by cell
identifier; the contributions are the absolute values of those vectors
arranged per gene identifier; and the result is invariant under any
change of the oracle's left singular vectors and singular values (and
of the square-root routine), so the scaled singular values are computed
but never applied. -/
theorem svd_components_unscaled_projection
    (scipySvd scipySvd2 :
      List (List ℚ) → List (List ℚ) × List ℚ × List (List ℚ))
    (npSqrt npSqrt2 : ℚ → ℚ) (df : DataFrame) (k : Nat)
    (hagree : (scipySvd2 (dfTranspose df).data).2.2 =
      (scipySvd (dfTranspose df).data).2.2) :
    (svd_strategy scipySvd npSqrt df k).1.rowNames = df.colNames ∧
    (svd_strategy scipySvd npSqrt df k).1.data =
      (dfTranspose df).data.map (fun r =>
        (((scipySvd (dfTranspose df).data).2.2).take k).map
          (fun w => dotQ r w)) ∧
    (svd_strategy scipySvd npSqrt df k).2.rowNames = df.rowNames ∧
    (svd_strategy scipySvd npSqrt df k).2.data =
      (List.range
          ((((scipySvd (dfTranspose df).data).2.2).headD []).length)).map
        (fun g => (((scipySvd (dfTranspose df).data).2.2).take k).map
          (fun w => |w.getD g 0|)) ∧
    svd_strategy scipySvd2 npSqrt2 df k = svd_strategy scipySvd npSqrt df k := by
  refine ⟨rfl, ?_, rfl, ?_, ?_⟩
  · simp only [svd_strategy, List.map_map]
    refine List.map_congr_left (fun r hr => ?_)
    simp [List.map_take, Function.comp]
  · simp only [svd_strategy, List.map_map]
    refine List.map_congr_left (fun g hg => ?_)
    simp [List.map_take, List.map_map, Function.comp_def]
  · simp only [svd_strategy]
    rw [hagree]

/-- C2 witness: the component and contribution formulas instantiated on
the two-by-two matrix with the identity singular-vector oracle. -/
theorem svd_components_unscaled_projection_witness :
    (svd_strategy svdOracleId2 logId dfTwoByTwo 1).1.rowNames =
      dfTwoByTwo.colNames ∧
    (svd_strategy svdOracleId2 logId dfTwoByTwo 1).1.data =
      (dfTranspose dfTwoByTwo).data.map (fun r =>
        (((svdOracleId2 (dfTranspose dfTwoByTwo).data).2.2).take 1).map
          (fun w => dotQ r w)) ∧
    (svd_strategy svdOracleId2 logId dfTwoByTwo 1).2.rowNames =
      dfTwoByTwo.rowNames ∧
    (svd_strategy svdOracleId2 logId dfTwoByTwo 1).2.data =
      (List.range
          ((((svdOracleId2 (dfTranspose dfTwoByTwo).data).2.2).headD
            []).length)).map
        (fun g => (((svdOracleId2 (dfTranspose dfTwoByTwo).data).2.2).take
          1).map (fun w => |w.getD g 0|)) ∧
    svd_strategy svdOracleId2 logId dfTwoByTwo 1 =
      svd_strategy svdOracleId2 logId dfTwoByTwo 1 :=
  svd_components_unscaled_projection svdOracleId2 svdOracleId2 logId logId
    dfTwoByTwo 1 rfl

/-- C1: the matrix handed to the chosen SVD strategy is never the
column-standardized one.  The `scale` flag has no effect whatsoever on
the result of `pca` (the standardized matrix is computed and then
dropped), and on a concrete dataset with `scale = true` the stored
components are those of the raw normalized matrix, which differ from
the components the strategy yields on the standardized matrix. -/
theorem pca_scale_is_never_applied :
    (∀ (lO : DataFrame → Nat → Nat → Option Nat → LanczosResult)
       (sO : List (List ℚ) → List (List ℚ) × List ℚ × List (List ℚ))
       (sq : ℚ → ℚ) (st : List ℚ → ℚ) (method : String)
       (name : Option String) (ncomp : Nat) (allgenes : Bool)
       (seed : Option Nat) (obj : Dataset),
      pca lO sO sq st method name ncomp allgenes true seed obj =
        pca lO sO sq st method name ncomp allgenes false seed obj) ∧
    ((pca lancEmpty svdOracleOne logId stdOne "svd" none 1 false true none
        dsOneNorm).map (fun o => (o.norm_data.lookup "n").map
          (fun e => e.drPca.map (fun s => s.comp.data))) =
      .ok (some (some [[0], [2]]))) ∧
    (svd_strategy svdOracleOne logId (scaleRowsDF stdOne dfOneGene) 1).1.data =
      [[-1], [1]] ∧
    ([[0], [2]] : List (List ℚ)) ≠ [[-1], [1]] := by
  refine ⟨fun lO sO sq st method name ncomp allgenes seed obj => rfl,
    ?_, ?_, ?_⟩
  · norm_num [pca, pcaOne, dsOneNorm, entryOneGene, dfOneGene, svdOracleOne,
      svd_strategy, dfTranspose, dotQ, filterRows, updateNorm, logId, stdOne,
      List.range_succ, List.filter_cons, List.foldlM, List.lookup,
      Except.map, (by decide : ¬ ("svd" = "irlb"))]
  · norm_num [svd_strategy, svdOracleOne, scaleRowsDF, listMean, stdOne,
      dfOneGene, dfTranspose, dotQ, logId, List.range_succ]
  · norm_num

/-- C5: corrected form.  When the requested component count exceeds
`min(n_genes, n_cells)`, only the iterative strategy fails (the
spec-modelled Lanczos routine signals the error); the exact strategy
returns normally, keeping every cell row but truncating each component
row to `min ncomp n_genes` columns instead of failing. -/
theorem excess_ncomp_irlb_fails_svd_truncates
    (lOracle : DataFrame → Nat → Nat → Option Nat → LanczosResult)
    (scipySvd : List (List ℚ) → List (List ℚ) × List ℚ × List (List ℚ))
    (npSqrt : ℚ → ℚ) (df : DataFrame) (ncomp : Nat) (seed : Option Nat)
    (hk : min df.data.length df.colNames.length < ncomp)
    (hvt : ((scipySvd (dfTranspose df).data).2.2).length =
      df.rowNames.length) :
    irlb lOracle df ncomp seed =
      .error "lanczos: requested dimension exceeds matrix dimensions" ∧
    (∀ row ∈ (svd_strategy scipySvd npSqrt df ncomp).1.data,
      row.length = min ncomp df.rowNames.length) ∧
    (svd_strategy scipySvd npSqrt df ncomp).1.data.length =
      df.colNames.length := by
  refine ⟨?_, ?_, ?_⟩
  · simp [irlb, lanczos, hk]
  · intro row hrow
    simp only [svd_strategy, List.map_map, List.mem_map] at hrow
    obtain ⟨r, hr, rfl⟩ := hrow
    simp [List.length_take, hvt]
  · simp [svd_strategy, dfTranspose]

/-- C5 witness: on the two-by-two matrix with `ncomp = 3` the iterative
path errors and the exact path returns two-column rows for both cells. -/
theorem excess_ncomp_irlb_fails_svd_truncates_witness :
    min dfTwoByTwo.data.length dfTwoByTwo.colNames.length < 3 ∧
    ((svdOracleId2 (dfTranspose dfTwoByTwo).data).2.2).length =
      dfTwoByTwo.rowNames.length ∧
    (irlb lancEmpty dfTwoByTwo 3 none =
      .error "lanczos: requested dimension exceeds matrix dimensions" ∧
    (∀ row ∈ (svd_strategy svdOracleId2 logId dfTwoByTwo 3).1.data,
      row.length = min 3 dfTwoByTwo.rowNames.length) ∧
    (svd_strategy svdOracleId2 logId dfTwoByTwo 3).1.data.length =
      dfTwoByTwo.colNames.length) :=
  ⟨by decide, rfl,
    excess_ncomp_irlb_fails_svd_truncates lancEmpty svdOracleId2 logId
      dfTwoByTwo 3 none (by decide) rfl⟩

end Adobo
